import Mathlib

/-!
Shallow embedding of the ToyRover simulator (src/toyrover/board.py, types.py,
rover.py, input_controller.py, run.py) and proofs about its claims.

Modelling conventions:
* Python `float` values are modelled as exact rationals (`ℚ`).
* Python strings are modelled as lists of characters (`Str := List Char`).
* Mutation is modelled by returning the updated value; `print` output is
  modelled by returning the list of printed lines.
* Uncaught Python exceptions are modelled with `Except PyErr`.
* Diagnostic message text is modelled, but interpolated run-time values inside
  diagnostics (for example the numpy rendering of an out-of-bounds position)
  are abridged, since no claim depends on them.  The REPORT output line is
  modelled in full, including the two-decimal number formatting.
-/

namespace ToyRover

/-- Python strings are modelled as lists of characters. -/
abbrev Str := List Char

/-- Model of Python `str.strip()`: drop leading and trailing whitespace. -/
def strip (s : Str) : Str :=
  ((s.dropWhile Char.isWhitespace).reverse.dropWhile Char.isWhitespace).reverse

/-- Model of Python `str.split(sep)` for a one-character separator `sep`.
Like Python, consecutive separators produce empty fields, and the result is
never the empty list (splitting the empty string gives `[[]]`). -/
def splitChar (sep : Char) (s : Str) : List Str :=
  match s with
  | [] => [[]]
  | c :: rest =>
    let r := splitChar sep rest
    if c = sep then [] :: r
    else
      match r with
      | [] => [[c]]
      | g :: gs => (c :: g) :: gs

/-- Model of Python `str.upper()` (the simulator only uppercases ASCII). -/
def upper (s : Str) : Str := s.map Char.toUpper

/-- Vectors of two floats (`Vec2` in types.py, a numpy array of shape (2,)). -/
abbrev Vec2 := ℚ × ℚ

/-- Elementwise numpy vector addition. -/
def vecAdd (a b : Vec2) : Vec2 := (a.1 + b.1, a.2 + b.2)

/-- Numpy vector-times-scalar broadcasting. -/
def vecSMul (v : Vec2) (s : ℚ) : Vec2 := (v.1 * s, v.2 * s)

/-- Numpy vector-divided-by-scalar broadcasting.  Dividing by zero yields the
rational 0 here, standing for the NaN that numpy produces (see claim C7). -/
def vecDiv (v : Vec2) (s : ℚ) : Vec2 := (v.1 / s, v.2 / s)

/-- Exact square root on the rationals: correct whenever the argument is the
square of a rational number.  `np.linalg.norm` is only ever applied by the
simulator to direction vectors, and every direction the command language can
produce is an axis-aligned unit vector, whose norm is the rational 1. -/
def ratSqrt (q : ℚ) : ℚ := (Nat.sqrt q.num.toNat : ℚ) / (Nat.sqrt q.den : ℚ)

/-- Model of `np.linalg.norm` on a 2-vector: the Euclidean norm. -/
def npNorm (v : Vec2) : ℚ := ratSqrt (v.1 ^ 2 + v.2 ^ 2)

/-- The `Command` enumeration from types.py. -/
inductive Command where
  | FILE
  | PLACE
  | MOVE
  | LEFT
  | RIGHT
  | REPORT
  | HELP
  | EXIT
deriving DecidableEq

/-- The string value of each `Command` member (its `_value_`). -/
def Command.value : Command → Str
  | .FILE => "FILE".data
  | .PLACE => "PLACE".data
  | .MOVE => "MOVE".data
  | .LEFT => "LEFT".data
  | .RIGHT => "RIGHT".data
  | .REPORT => "REPORT".data
  | .HELP => "HELP".data
  | .EXIT => "EXIT".data

/-- The documentation string attached to each `Command` member (its `doc`). -/
def Command.doc : Command → Str
  | .FILE => "Read commands from the provided filepath. Accepts one arg in the form of a filepath. ".data
  | .PLACE => "Place the rover at the specified x,y coordinates with given direction. Accepts one arg in the form x,y,Direction e.g. 1,3,NORTH".data
  | .MOVE => "Move the rover one place forwards. ".data
  | .LEFT => "Rotate the rover 90 degrees to the left. ".data
  | .RIGHT => "Rotate the rover 90 degrees to the right. ".data
  | .REPORT => "Display the current location of the rover. ".data
  | .HELP => "Display a help message. ".data
  | .EXIT => "Exit the simulator. ".data

/-- The fixed member order of the `Command` enumeration (`list(Command)`). -/
def commandList : List Command :=
  [.FILE, .PLACE, .MOVE, .LEFT, .RIGHT, .REPORT, .HELP, .EXIT]

/-- Model of the Python constructor call `Command(s)`: look the string up among
the member values; Python raises `ValueError` when no member matches, modelled
as `none`. -/
def Command.ofStr (s : Str) : Option Command :=
  (commandList.find? fun cmd => cmd.value = s)

/-- The `Direction` enumeration from types.py. -/
inductive Direction where
  | NORTH
  | EAST
  | SOUTH
  | WEST
deriving DecidableEq

/-- The string value of each `Direction` member. -/
def Direction.value : Direction → Str
  | .NORTH => "NORTH".data
  | .EAST => "EAST".data
  | .SOUTH => "SOUTH".data
  | .WEST => "WEST".data

/-- The fixed member order of the `Direction` enumeration (`list(Direction)`). -/
def directionList : List Direction := [.NORTH, .EAST, .SOUTH, .WEST]

/-- Model of the Python constructor call `Direction(s)`. -/
def Direction.ofStr (s : Str) : Option Direction :=
  (directionList.find? fun d => d.value = s)

/-- `Direction.as_vec2` from types.py: the exact axis-aligned unit vectors. -/
def Direction.as_vec2 : Direction → Vec2
  | .NORTH => (0, 1)
  | .EAST => (1, 0)
  | .SOUTH => (0, -1)
  | .WEST => (-1, 0)

/-- `PlaceArgs` from types.py. -/
structure PlaceArgs where
  position : Vec2
  direction : Vec2
deriving DecidableEq

/-- The run-time type of the `args` value flowing between `process_input` and
`run_command`: the Python type `Path | PlaceArgs | None`.  A `pathlib.Path` is
just its path string. -/
inductive Args where
  | none
  | path (p : Str)
  | placeArgs (pa : PlaceArgs)
deriving DecidableEq

/-- Uncaught Python exceptions that the simulator can let escape.
`fuelExhausted` is not a Python error: it is an artifact of the termination
fuel bounding the depth of nested FILE commands (which is unbounded in the
Python source). -/
inductive PyErr where
  | indexError
  | valueError
  | assertionError
  | fileNotFound
  | fuelExhausted
deriving DecidableEq

/-- The `Board` from board.py: immutable rectangular bounds. -/
structure Board where
  x_size : ℚ
  y_size : ℚ
deriving DecidableEq

/-- `Board.is_point_in_bounds` from board.py:
`point[0] >= 0 and point[0] <= self._x_size and point[1] >= 0 and point[1] <= self._y_size`. -/
def Board.is_point_in_bounds (b : Board) (point : Vec2) : Bool :=
  decide (point.1 ≥ 0) && decide (point.1 ≤ b.x_size) &&
    decide (point.2 ≥ 0) && decide (point.2 ≤ b.y_size)

/-! Rendering helpers for the REPORT output line (rover.py `report`). -/

/-- Decimal digits of a natural number; the first argument is structural fuel
(`n + 1` digits always suffice). -/
def natDigits : ℕ → ℕ → Str
  | 0, _ => []
  | fuel + 1, n =>
    if n < 10 then [Char.ofNat (48 + n)]
    else natDigits fuel (n / 10) ++ [Char.ofNat (48 + n % 10)]

/-- Decimal rendering of a natural number. -/
def natStr (n : ℕ) : Str := natDigits (n + 1) n

/-- Model of the Python format `f"{q:.2f}"`: the value rendered with exactly
two digits after the decimal point.  Python rounds ties to even; the model
rounds ties up, which differs only at exact midpoints, and no claim evaluates
the format at a midpoint. -/
def fmt2 (q : ℚ) : Str :=
  let c : ℤ := ⌊q * 100 + 1 / 2⌋
  let n : ℕ := c.natAbs
  (if c < 0 then "-".data else []) ++ natStr (n / 100) ++ ".".data ++
    (if n % 100 < 10 then "0".data else []) ++ natStr (n % 100)

/-- Abridged model of the numpy rendering of a 2-vector inside printed text;
no claim depends on this rendering. -/
def vecStr (v : Vec2) : Str :=
  "[".data ++ fmt2 v.1 ++ " ".data ++ fmt2 v.2 ++ "]".data

/-- The L1 distance between two 2-vectors, as computed by
`np.sum(np.abs(all_dir_vals - direction), axis=1)` in rover.py. -/
def l1dist (a b : Vec2) : ℚ := |a.1 - b.1| + |a.2 - b.2|

/-! The Rover from rover.py.  The Python object holds a reference to its
`Board`; the model passes the board explicitly to the operations that use it.
Mutating methods return the updated rover together with the printed lines. -/

/-- The `Rover` state: `_position` and `_direction`. -/
structure Rover where
  position : Vec2
  direction : Vec2
deriving DecidableEq

/-- Diagnostic printed by `Rover.place` on an out-of-bounds position
(`f"Point {position} is out of bounds. Place action ignored."`). -/
def placeOobMsg (position : Vec2) : Str :=
  "Point ".data ++ vecStr position ++ " is out of bounds. Place action ignored.".data

/-- Diagnostic printed by `Rover.move` on an out-of-bounds target
(`f"Cannot move {distance} units as would move rover out of bounds!"`; the
interpolated distance is abridged, no claim reads it). -/
def moveOobMsg : Str :=
  "Cannot move the given units as would move rover out of bounds!".data

/-- `Rover.place` from rover.py: when the position is in bounds, store it and
store the direction normalised to unit length (`direction / np.linalg.norm(direction)`);
otherwise print a diagnostic and change nothing. -/
def Rover.place (b : Board) (r : Rover) (position direction : Vec2) :
    Rover × List Str :=
  if b.is_point_in_bounds position then
    ({ position := position, direction := vecDiv direction (npNorm direction) }, [])
  else
    (r, [placeOobMsg position])

/-- `Rover.__init__` from rover.py: validate the start position, raising
`ValueError` when out of bounds, otherwise delegate to `place` (whose bounds
check then succeeds, storing the position and the normalised direction and
printing nothing). -/
def Rover.new (b : Board) (position direction : Vec2) : Except PyErr Rover :=
  if b.is_point_in_bounds position then
    .ok { position := position, direction := vecDiv direction (npNorm direction) }
  else
    .error .valueError

/-- `Rover.move` from rover.py: compute
`target_pos = position + direction * distance`; commit it when in bounds,
otherwise print a diagnostic and change nothing. -/
def Rover.move (b : Board) (r : Rover) (distance : ℚ) : Rover × List Str :=
  let target_pos := vecAdd r.position (vecSMul r.direction distance)
  if b.is_point_in_bounds target_pos then
    ({ r with position := target_pos }, [])
  else
    (r, [moveOobMsg])

/-- Exact value of `np.cos(np.radians a)` at the quarter-turn angles.  The
simulator only ever rotates by the hard-coded `ROTATE_ANGLE = 90.0` (passed
negated for right turns), where the real-valued cosine is exactly 0; the
catch-all for angles that are not integer multiples of 90 degrees is never
exercised by any claim. -/
def cosDeg (a : ℚ) : ℚ :=
  if a.den = 1 ∧ a.num % 90 = 0 then
    match (a.num / 90) % 4 with
    | 0 => 1
    | 1 => 0
    | 2 => -1
    | _ => 0
  else 0

/-- Exact value of `np.sin(np.radians a)` at the quarter-turn angles; see
`cosDeg`. -/
def sinDeg (a : ℚ) : ℚ :=
  if a.den = 1 ∧ a.num % 90 = 0 then
    match (a.num / 90) % 4 with
    | 0 => 0
    | 1 => 1
    | 2 => 0
    | _ => -1
  else 0

/-- `Rover._get_rot_matrix` from rover.py: the counter-clockwise-positive 2D
rotation matrix `[[cos, -sin], [sin, cos]]`, as a pair of rows. -/
def get_rot_matrix (angle_deg : ℚ) : Vec2 × Vec2 :=
  ((cosDeg angle_deg, -sinDeg angle_deg), (sinDeg angle_deg, cosDeg angle_deg))

/-- Matrix-vector product (`rot_mat @ self._direction`). -/
def matVec (m : Vec2 × Vec2) (v : Vec2) : Vec2 :=
  (m.1.1 * v.1 + m.1.2 * v.2, m.2.1 * v.1 + m.2.2 * v.2)

/-- `Rover.rotate_left` from rover.py: rotate the currently stored direction by
the given positive (counter-clockwise) angle. -/
def Rover.rotate_left (r : Rover) (angle_deg : ℚ) : Rover :=
  { r with direction := matVec (get_rot_matrix angle_deg) r.direction }

/-- `Rover.rotate_right` from rover.py: rotation by the negated angle. -/
def Rover.rotate_right (r : Rover) (angle_deg : ℚ) : Rover :=
  { r with direction := matVec (get_rot_matrix (-angle_deg)) r.direction }

/-- `Rover._coerce_direction_to_cardinal` from rover.py: the `Direction` whose
vector minimises the L1 distance to the stored direction (`np.argmin` returns
the first index attaining the minimum, in the member order NORTH, EAST, SOUTH,
WEST), provided that distance is within the tolerance; `None` otherwise. -/
def coerceToCardinal (direction : Vec2) (tolerance : ℚ := 1 / 1000000) :
    Option Direction :=
  let best : Direction × ℚ :=
    [(Direction.EAST, l1dist Direction.EAST.as_vec2 direction),
     (Direction.SOUTH, l1dist Direction.SOUTH.as_vec2 direction),
     (Direction.WEST, l1dist Direction.WEST.as_vec2 direction)].foldl
      (fun acc p => if p.2 < acc.2 then p else acc)
      (Direction.NORTH, l1dist Direction.NORTH.as_vec2 direction)
  if best.2 ≤ tolerance then some best.1 else none

/-- `Rover.report` from rover.py: the printed line
`f"Rover Position: {x:.2f}, {y:.2f}, Direction: {D}"`, where `D` is the
coerced cardinal (printed as its string value) when one is within tolerance,
and the raw direction vector otherwise. -/
def Rover.report (r : Rover) : Str :=
  let dirStr :=
    match coerceToCardinal r.direction with
    | some d => d.value
    | none => vecStr r.direction
  "Rover Position: ".data ++ fmt2 r.position.1 ++ ", ".data ++
    fmt2 r.position.2 ++ ", Direction: ".data ++ dirStr

/-! The InputController from input_controller.py. -/

/-- The filesystem visible to the simulator: a path names a regular file
exactly when the map yields its list of lines.  `Path.is_file()` is modelled
as `(fs p).isSome`; `open()` on a path with no file raises
`FileNotFoundError`. -/
abbrev FS := Str → Option (List Str)

/-- `MOVE_DISTANCE` from input_controller.py. -/
def MOVE_DISTANCE : ℚ := 1

/-- `ROTATE_ANGLE` from input_controller.py. -/
def ROTATE_ANGLE : ℚ := 90

/-- The `InputController` state: the board and the optional rover
(`None` until the first successful PLACE). -/
structure InputController where
  board : Board
  rover : Option Rover
deriving DecidableEq

/-- `InputController.__init__`: store the board, no rover yet. -/
def InputController.init (board : Board) : InputController :=
  { board := board, rover := none }

/-- Numeric value of a list of decimal digit characters. -/
def natVal (cs : Str) : ℕ := cs.foldl (fun n c => 10 * n + (c.toNat - 48)) 0

/-- Model of Python `float(s)` restricted to plain decimal literals: optional
surrounding whitespace, an optional sign, then digits with an optional single
decimal point (at least one digit overall).  `none` models the `ValueError`
that `float` raises on other text.  (Python additionally accepts exponents,
underscores, `inf` and `nan`; the simulator's claims exercise none of those.) -/
def parseFloat (s : Str) : Option ℚ :=
  let t := strip s
  let signAndBody : ℚ × Str :=
    match t with
    | '-' :: rest => (-1, rest)
    | '+' :: rest => (1, rest)
    | _ => (1, t)
  match splitChar '.' signAndBody.2 with
  | [ip] =>
    if ip ≠ [] ∧ ip.all Char.isDigit then some (signAndBody.1 * natVal ip)
    else none
  | [ip, fp] =>
    if (ip ≠ [] ∨ fp ≠ []) ∧ ip.all Char.isDigit ∧ fp.all Char.isDigit then
      some (signAndBody.1 * ((natVal ip : ℚ) + (natVal fp : ℚ) / 10 ^ fp.length))
    else none
  | _ => none

/-- Diagnostic printed on a line with more than two space-separated pieces. -/
def fmtErrMsg : Str :=
  "Input format should be `<COMMAND>` or `<COMMAND> <ARGS>`".data

/-- Diagnostic printed when the first piece is not a command value
(`f"Cannot interpret input '{piece}' as a command Command must be one of {list(Command)}."`;
the quoting and the rendering of the member list are abridged). -/
def unknownCmdMsg (piece : Str) : Str :=
  "Cannot interpret input ".data ++ piece ++
    " as a command Command must be one of the valid commands.".data

/-- Diagnostic printed by the `except ValueError` handler around argument
extraction (`f"Unable to interpret args '{piece}' for command '{command}'"`,
quoting abridged). -/
def badArgsMsg (piece : Str) (command : Command) : Str :=
  "Unable to interpret args ".data ++ piece ++ " for command ".data ++
    command.value

/-- `InputController.process_input` from input_controller.py.  Returns the
optional command, its arguments and the printed diagnostics; `Except.error`
models an uncaught exception.  The `try` block around argument extraction
catches `ValueError` only, so the `input_pieces[1]` lookup on a one-piece
FILE or PLACE line raises an uncaught `IndexError` (claim C2), while the
`Path.is_file()` check for FILE — performed here, at parse time — raises a
`ValueError` that the handler converts into a diagnostic (claim C5). -/
def process_input (fs : FS) (input : Str) :
    Except PyErr (Option Command × Args × List Str) :=
  let cleaned_input := strip input
  if cleaned_input.length = 0 then
    .ok (none, .none, [])
  else
    let input_pieces := splitChar ' ' cleaned_input
    if input_pieces.length ≠ 1 ∧ input_pieces.length ≠ 2 then
      .ok (none, .none, [fmtErrMsg])
    else
      match Command.ofStr (upper (input_pieces.headD [])) with
      | none => .ok (none, .none, [unknownCmdMsg (input_pieces.headD [])])
      | some command =>
        match command with
        | .FILE =>
          match input_pieces[1]? with
          | none => .error .indexError
          | some piece =>
            if (fs piece).isSome then .ok (some .FILE, .path piece, [])
            else .ok (none, .none, [badArgsMsg piece .FILE])
        | .PLACE =>
          match input_pieces[1]? with
          | none => .error .indexError
          | some piece =>
            let place_args := splitChar ',' piece
            if place_args.length ≠ 3 then
              .ok (none, .none, [badArgsMsg piece .PLACE])
            else
              match parseFloat (place_args.headD []),
                  parseFloat ((place_args[1]?).getD []),
                  Direction.ofStr (upper ((place_args[2]?).getD [])) with
              | some x, some y, some d =>
                .ok (some .PLACE, .placeArgs ⟨(x, y), d.as_vec2⟩, [])
              | _, _, _ => .ok (none, .none, [badArgsMsg piece .PLACE])
        | cmd => .ok (some cmd, .none, [])

/-- Diagnostic printed by `_handle_place` when no rover exists and the
requested position is out of bounds (interpolated position abridged). -/
def createOobMsg (position : Vec2) : Str :=
  "Unable to create rover at ".data ++ vecStr position ++
    " as this is out of bounds.".data

/-- `InputController._handle_place` from input_controller.py: with no rover
yet, create one when the position is in bounds (the `Rover` constructor call
could in principle raise, but its bounds check repeats the guard just tested);
with a rover, delegate to `Rover.place`. -/
def InputController.handle_place (c : InputController) (place_args : PlaceArgs) :
    Except PyErr (InputController × List Str) :=
  match c.rover with
  | none =>
    if c.board.is_point_in_bounds place_args.position then
      match Rover.new c.board place_args.position place_args.direction with
      | .ok r => .ok ({ c with rover := some r }, [])
      | .error e => .error e
    else
      .ok (c, [createOobMsg place_args.position])
  | some r =>
    let pr := Rover.place c.board r place_args.position place_args.direction
    .ok ({ c with rover := some pr.1 }, pr.2)

/-- Diagnostic printed by the rover-requiring commands when no rover exists. -/
def noRoverMsg : Str := "No rover present, place a rover first!".data

/-- The lines printed by HELP: `"List of commands:"` then one line per member
with its value and documentation. -/
def helpLines : List Str :=
  "List of commands:".data ::
    commandList.map fun cmd => '\t' :: (cmd.value ++ '\t' :: cmd.doc)

mutual

/-- `InputController.run_command` from input_controller.py: execute a parsed
command, returning the continue flag (`False` only for EXIT), the updated
controller and the printed lines.  The `assert isinstance(...)` guards on the
FILE and PLACE arguments raise `AssertionError` on an argument of the wrong
type.  `fuel` bounds the depth of nested FILE commands, an artifact of
totality only: the Python recursion is unbounded. -/
def run_command (fs : FS) (fuel : ℕ) (command : Command) (args : Args)
    (c : InputController) : Except PyErr (Bool × InputController × List Str) :=
  match command with
  | .FILE =>
    match args with
    | .path p =>
      match handle_file fs fuel p c with
      | .ok r => .ok (true, r.1, r.2)
      | .error e => .error e
    | _ => .error .assertionError
  | .PLACE =>
    match args with
    | .placeArgs pa =>
      match c.handle_place pa with
      | .ok r => .ok (true, r.1, r.2)
      | .error e => .error e
    | _ => .error .assertionError
  | .MOVE =>
    match c.rover with
    | some r =>
      let mr := Rover.move c.board r MOVE_DISTANCE
      .ok (true, { c with rover := some mr.1 }, mr.2)
    | none => .ok (true, c, [noRoverMsg])
  | .LEFT =>
    match c.rover with
    | some r => .ok (true, { c with rover := some (r.rotate_left ROTATE_ANGLE) }, [])
    | none => .ok (true, c, [noRoverMsg])
  | .RIGHT =>
    match c.rover with
    | some r => .ok (true, { c with rover := some (r.rotate_right ROTATE_ANGLE) }, [])
    | none => .ok (true, c, [noRoverMsg])
  | .REPORT =>
    match c.rover with
    | some r => .ok (true, c, [r.report])
    | none => .ok (true, c, [noRoverMsg])
  | .HELP => .ok (true, c, helpLines)
  | .EXIT => .ok (false, c, [])
termination_by (fuel, 1, 0)

/-- `InputController._handle_file` from input_controller.py: `open` the file —
raising `FileNotFoundError` when the path names no file — then run every line
through `process_input` and `run_command`. -/
def handle_file (fs : FS) (fuel : ℕ) (filepath : Str) (c : InputController) :
    Except PyErr (InputController × List Str) :=
  match fs filepath with
  | none => .error .fileNotFound
  | some lines =>
    match fuel with
    | 0 => .error .fuelExhausted
    | fuel2 + 1 => run_lines fs fuel2 lines c
termination_by (fuel, 0, 0)

/-- The line loop inside `_handle_file`: parse each line, dispatch it when a
command was recognised (ignoring the returned continue flag, as the source
does), and skip it otherwise.  An uncaught exception from parsing or
dispatching propagates and abandons the rest of the file. -/
def run_lines (fs : FS) (fuel : ℕ) (lines : List Str) (c : InputController) :
    Except PyErr (InputController × List Str) :=
  match lines with
  | [] => .ok (c, [])
  | line :: rest =>
    match process_input fs line with
    | .error e => .error e
    | .ok (cmdOpt, args, out1) =>
      match cmdOpt with
      | none =>
        match run_lines fs fuel rest c with
        | .error e => .error e
        | .ok (c2, out2) => .ok (c2, out1 ++ out2)
      | some cmd =>
        match run_command fs fuel cmd args c with
        | .error e => .error e
        | .ok (_, c2, out2) =>
          match run_lines fs fuel rest c2 with
          | .error e => .error e
          | .ok (c3, out3) => .ok (c3, out1 ++ out2 ++ out3)
termination_by (fuel, 2, lines.length)

end

/-- The dispatch loop of run.py over a list of already-parsed commands: run
each in order, stopping when `run_command` returns `False` (EXIT). -/
def runSeq (fs : FS) (fuel : ℕ) :
    List (Command × Args) → InputController →
      Except PyErr (InputController × List Str)
  | [], c => .ok (c, [])
  | (cmd, args) :: rest, c =>
    match run_command fs fuel cmd args c with
    | .error e => .error e
    | .ok (cont, c2, out1) =>
      if cont then
        match runSeq fs fuel rest c2 with
        | .error e => .error e
        | .ok (c3, out2) => .ok (c3, out1 ++ out2)
      else .ok (c2, out1)

/-- `BOARD_SIZE` from run.py. -/
def BOARD_SIZE : ℚ := 5

/-- The default 5×5 board constructed by run.py. -/
def board5 : Board := { x_size := BOARD_SIZE, y_size := BOARD_SIZE }

/-- The empty filesystem: no path names a file. -/
def fsEmpty : FS := fun _ => none

/-- A filesystem holding one empty file at path `a.txt`. -/
def fsA : FS := fun p => if p = "a.txt".data then some [] else none

/-- The public Rover operations named by claim C1, each with its caller-chosen
arguments. -/
inductive RoverOp where
  | place (position direction : Vec2)
  | move (distance : ℚ)
  | rotate_left (angle_deg : ℚ)
  | rotate_right (angle_deg : ℚ)
  | report

/-- Apply one Rover operation on a board, discarding the printed output. -/
def applyOp (b : Board) (r : Rover) : RoverOp → Rover
  | .place p d => (Rover.place b r p d).1
  | .move dist => (Rover.move b r dist).1
  | .rotate_left a => Rover.rotate_left r a
  | .rotate_right a => Rover.rotate_right r a
  | .report => r

/-- Apply a list of Rover operations in order. -/
def applyOps (b : Board) (r : Rover) (ops : List RoverOp) : Rover :=
  ops.foldl (applyOp b) r

/-- The first parsed command sequence of claim C3:
PLACE 3,3,NORTH; MOVE; LEFT; MOVE; MOVE; REPORT. -/
def cmds1 : List (Command × Args) :=
  [(.PLACE, .placeArgs ⟨(3, 3), (0, 1)⟩), (.MOVE, .none), (.LEFT, .none),
   (.MOVE, .none), (.MOVE, .none), (.REPORT, .none)]

/-- The continuation sequence of claim C3:
MOVE; MOVE; RIGHT; MOVE; MOVE; REPORT. -/
def cmds2 : List (Command × Args) :=
  [(.MOVE, .none), (.MOVE, .none), (.RIGHT, .none), (.MOVE, .none),
   (.MOVE, .none), (.REPORT, .none)]

/-! Helper lemmas (shared; no claim theorem is used by another proof). -/

/-- Every single Rover operation preserves an in-bounds position: `place` and
`move` commit a new position only after the bounds check, and the rotations
and `report` do not touch the position. -/
theorem applyOp_in_bounds (b : Board) (r : Rover) (op : RoverOp)
    (h : b.is_point_in_bounds r.position = true) :
    b.is_point_in_bounds (applyOp b r op).position = true := by
  cases op with
  | place p d =>
    simp only [applyOp, Rover.place]
    split
    next hin => simpa using hin
    next => simpa using h
  | move dist =>
    simp only [applyOp, Rover.move]
    split
    next hin => simpa using hin
    next => simpa using h
  | rotate_left a => simpa [applyOp, Rover.rotate_left] using h
  | rotate_right a => simpa [applyOp, Rover.rotate_right] using h
  | report => simpa [applyOp] using h

/-- Lists of Rover operations preserve an in-bounds position. -/
theorem applyOps_in_bounds (b : Board) (r : Rover) (ops : List RoverOp)
    (h : b.is_point_in_bounds r.position = true) :
    b.is_point_in_bounds (applyOps b r ops).position = true := by
  induction ops generalizing r with
  | nil => exact h
  | cons op rest ih =>
    simpa [applyOps] using ih (applyOp b r op) (applyOp_in_bounds b r op h)

/-! Claim theorems. -/

/-- C1: every rover created via the controller (`_handle_place`) or via direct
construction (`Rover.__init__`) has its position inside the board bounds, and
every subsequent operation (`place`, `move`, `rotate_left`, `rotate_right`,
`report`) preserves this: no reachable rover state is out of bounds.  The
first conjunct covers direct construction followed by any operation sequence;
the second shows `_handle_place` preserves the controller-level invariant
(it creates a rover only at an in-bounds position, and delegated placements
go through `Rover.place`). -/
theorem C1_position_invariant :
    (∀ (b : Board) (p d : Vec2) (r : Rover), Rover.new b p d = .ok r →
      ∀ ops : List RoverOp, b.is_point_in_bounds (applyOps b r ops).position = true)
    ∧ ∀ (c : InputController) (pa : PlaceArgs) (c2 : InputController) (out : List Str),
        (∀ r, c.rover = some r → c.board.is_point_in_bounds r.position = true) →
        c.handle_place pa = .ok (c2, out) →
        c2.board = c.board ∧
          ∀ r, c2.rover = some r → c2.board.is_point_in_bounds r.position = true := by
  constructor
  · intro b p d r hnew ops
    apply applyOps_in_bounds
    unfold Rover.new at hnew
    split at hnew
    next hin =>
      cases hnew
      simpa using hin
    next => cases hnew
  · intro c pa c2 out hinv hrun
    unfold InputController.handle_place at hrun
    cases hc : c.rover with
    | none =>
      by_cases hin : c.board.is_point_in_bounds pa.position = true
      · simp only [hc, hin, if_true, Rover.new, Except.ok.injEq, Prod.mk.injEq] at hrun
        refine ⟨hrun.1 ▸ rfl, ?_⟩
        intro r hr
        rw [← hrun.1] at hr
        simp only [Option.some.injEq] at hr
        subst hr
        rw [← hrun.1]
        simpa using hin
      · rw [Bool.not_eq_true] at hin
        simp only [hc, hin, Bool.false_eq_true, if_false, Except.ok.injEq,
          Prod.mk.injEq] at hrun
        refine ⟨hrun.1 ▸ rfl, ?_⟩
        intro r hr
        rw [← hrun.1, hc] at hr
        cases hr
    | some r0 =>
      simp only [hc, Except.ok.injEq, Prod.mk.injEq] at hrun
      refine ⟨hrun.1 ▸ rfl, ?_⟩
      intro r hr
      rw [← hrun.1] at hr
      simp only [Option.some.injEq] at hr
      subst hr
      rw [← hrun.1]
      have h0 : c.board.is_point_in_bounds r0.position = true := hinv r0 hc
      have hstep := applyOp_in_bounds c.board r0 (.place pa.position pa.direction) h0
      simpa [applyOp] using hstep

/-- Witness for C1: a rover built at (3,3) facing north on the 5×5 board stays
in bounds across a move, a left turn and another move; and the controller
invariant holds after `_handle_place` creates the rover. -/
theorem C1_position_invariant_witness :
    board5.is_point_in_bounds
        (applyOps board5 { position := (3, 3), direction := (0, 1) }
          [RoverOp.move 1, RoverOp.rotate_left 90, RoverOp.move 1]).position = true
    ∧ ∀ r, ({ board := board5,
                rover := some { position := (3, 3), direction := (0, 1) } } :
              InputController).rover = some r →
        board5.is_point_in_bounds r.position = true := by
  constructor
  · exact C1_position_invariant.1 board5 (3, 3) (0, 1)
      { position := (3, 3), direction := (0, 1) }
      (by norm_num [Rover.new, Board.is_point_in_bounds, vecDiv, npNorm, ratSqrt,
        board5, BOARD_SIZE])
      [RoverOp.move 1, RoverOp.rotate_left 90, RoverOp.move 1]
  · have h := (C1_position_invariant.2 (InputController.init board5)
      ⟨(3, 3), (0, 1)⟩
      { board := board5, rover := some { position := (3, 3), direction := (0, 1) } }
      []
      (by simp [InputController.init])
      (by norm_num [InputController.handle_place, InputController.init, Rover.new,
        Board.is_point_in_bounds, vecDiv, npNorm, ratSqrt, board5, BOARD_SIZE])).2
    simpa using h

/-- C2 (code bug): `process_input` does not return normally on every input.
The `try` block around argument extraction catches only `ValueError`, so the
single-token lines FILE and PLACE hit `input_pieces[1]` and raise an uncaught
`IndexError` to the caller — for every filesystem state, since the failure
happens before the path is ever consulted. -/
theorem C2_missing_argument_token_raises (fs : FS) :
    process_input fs "FILE".data = .error .indexError
    ∧ process_input fs "PLACE".data = .error .indexError :=
  ⟨rfl, rfl⟩

/-- C3: on the 5×5 board, dispatching PLACE 3,3,NORTH; MOVE; LEFT; MOVE; MOVE;
REPORT reports position (1.00, 4.00) facing WEST, and continuing with MOVE;
MOVE; RIGHT; MOVE; MOVE; REPORT reports (0.00, 5.00) facing NORTH with exactly
two of the four continuation moves rejected (the two `moveOobMsg` diagnostics
in the output trace).  The four trailing conjuncts replay the continuation's
four MOVE steps: from (1,4) facing west the first move commits (0,4), the
second is rejected unchanged, and after RIGHT the third commits (0,5) and the
fourth is rejected unchanged. -/
theorem C3_scenario_5x5 :
    runSeq fsEmpty 1 cmds1 (InputController.init board5)
      = .ok ({ board := board5,
                 rover := some { position := (1, 4), direction := (-1, 0) } },
          ["Rover Position: 1.00, 4.00, Direction: WEST".data])
    ∧ runSeq fsEmpty 1 (cmds1 ++ cmds2) (InputController.init board5)
      = .ok ({ board := board5,
                 rover := some { position := (0, 5), direction := (0, 1) } },
          ["Rover Position: 1.00, 4.00, Direction: WEST".data, moveOobMsg,
           moveOobMsg, "Rover Position: 0.00, 5.00, Direction: NORTH".data])
    ∧ Rover.move board5 { position := (1, 4), direction := (-1, 0) } MOVE_DISTANCE
      = ({ position := (0, 4), direction := (-1, 0) }, [])
    ∧ Rover.move board5 { position := (0, 4), direction := (-1, 0) } MOVE_DISTANCE
      = ({ position := (0, 4), direction := (-1, 0) }, [moveOobMsg])
    ∧ Rover.move board5 { position := (0, 4), direction := (0, 1) } MOVE_DISTANCE
      = ({ position := (0, 5), direction := (0, 1) }, [])
    ∧ Rover.move board5 { position := (0, 5), direction := (0, 1) } MOVE_DISTANCE
      = ({ position := (0, 5), direction := (0, 1) }, [moveOobMsg]) := by
  refine ⟨?_, ?_, ?_, ?_, ?_, ?_⟩ <;>
    norm_num [cmds1, cmds2, runSeq, run_command, InputController.init,
      InputController.handle_place, Rover.new, Rover.move, Rover.rotate_left,
      Rover.rotate_right, Rover.place, Rover.report, get_rot_matrix, matVec,
      cosDeg, sinDeg, vecAdd, vecSMul, vecDiv, npNorm, ratSqrt,
      Board.is_point_in_bounds, board5, BOARD_SIZE, MOVE_DISTANCE, ROTATE_ANGLE,
      coerceToCardinal, l1dist, Direction.as_vec2, Direction.value, fmt2,
      natStr, natDigits]

/-- C4: an out-of-bounds `place` or `move` mutates nothing, emits exactly the
diagnostic, and returns normally (the operations are total functions into a
state/output pair — there is no error case); an in-bounds `place` overwrites
both fields, re-normalising the direction, and an in-bounds `move` sets the
position to `position + direction * distance`. -/
theorem C4_place_move_bounds_semantics :
    (∀ (b : Board) (r : Rover) (position direction : Vec2),
      b.is_point_in_bounds position = false →
      Rover.place b r position direction = (r, [placeOobMsg position]))
    ∧ (∀ (b : Board) (r : Rover) (position direction : Vec2),
      b.is_point_in_bounds position = true →
      Rover.place b r position direction
        = ({ position := position,
             direction := vecDiv direction (npNorm direction) }, []))
    ∧ (∀ (b : Board) (r : Rover) (distance : ℚ),
      b.is_point_in_bounds (vecAdd r.position (vecSMul r.direction distance)) = false →
      Rover.move b r distance = (r, [moveOobMsg]))
    ∧ ∀ (b : Board) (r : Rover) (distance : ℚ),
        b.is_point_in_bounds (vecAdd r.position (vecSMul r.direction distance)) = true →
        Rover.move b r distance
          = ({ r with position := vecAdd r.position (vecSMul r.direction distance) }, []) := by
  refine ⟨?_, ?_, ?_, ?_⟩
  · intro b r position direction h
    simp [Rover.place, h]
  · intro b r position direction h
    simp [Rover.place, h]
  · intro b r distance h
    simp [Rover.move, h]
  · intro b r distance h
    simp [Rover.move, h]

/-- Witness for C4 on the 5×5 board: placing at (7,3) is rejected unchanged
with a diagnostic; placing at (1,4) overwrites both fields; moving north from
(0,5) is rejected unchanged with a diagnostic; moving north from (3,3)
advances to (3,4). -/
theorem C4_place_move_bounds_semantics_witness :
    Rover.place board5 { position := (3, 3), direction := (0, 1) } (7, 3) (0, 1)
      = ({ position := (3, 3), direction := (0, 1) }, [placeOobMsg (7, 3)])
    ∧ Rover.place board5 { position := (3, 3), direction := (0, 1) } (1, 4) (0, 1)
      = ({ position := (1, 4), direction := (0, 1) }, [])
    ∧ Rover.move board5 { position := (0, 5), direction := (0, 1) } 1
      = ({ position := (0, 5), direction := (0, 1) }, [moveOobMsg])
    ∧ Rover.move board5 { position := (3, 3), direction := (0, 1) } 1
      = ({ position := (3, 4), direction := (0, 1) }, []) := by
  refine ⟨?_, ?_, ?_, ?_⟩
  · exact C4_place_move_bounds_semantics.1 board5
      { position := (3, 3), direction := (0, 1) } (7, 3) (0, 1)
      (by norm_num [Board.is_point_in_bounds, board5, BOARD_SIZE])
  · have h := C4_place_move_bounds_semantics.2.1 board5
      { position := (3, 3), direction := (0, 1) } (1, 4) (0, 1)
      (by norm_num [Board.is_point_in_bounds, board5, BOARD_SIZE])
    rw [h]
    norm_num [vecDiv, npNorm, ratSqrt]
  · have h := C4_place_move_bounds_semantics.2.2.1 board5
      { position := (0, 5), direction := (0, 1) } 1
      (by norm_num [Board.is_point_in_bounds, board5, BOARD_SIZE, vecAdd, vecSMul])
    exact h
  · have h := C4_place_move_bounds_semantics.2.2.2 board5
      { position := (3, 3), direction := (0, 1) } 1
      (by norm_num [Board.is_point_in_bounds, board5, BOARD_SIZE, vecAdd, vecSMul])
    rw [h]
    norm_num [vecAdd, vecSMul]

/-- C5 counterexample: parsing `FILE foo.txt` on a filesystem where no such
file exists does NOT return the FILE command with the raw path — the
`Path.is_file()` check runs at parse time, its `ValueError` is converted into
a diagnostic, and no command is returned.  This refutes the claim that parse
succeeds for every second token regardless of the filesystem. -/
theorem C5_parse_time_validation_counterexample :
    process_input fsEmpty "FILE foo.txt".data
      = .ok (none, .none, [badArgsMsg "foo.txt".data .FILE]) := rfl

/-- C5 amended: parsing `FILE <token>` captures the raw path string, but the
existence/type validation (`is this a regular file`) is performed at parse
time, not at dispatch time: the FILE command with the path is returned exactly
when the filesystem has a regular file there, and otherwise a diagnostic is
emitted and no command is returned. -/
theorem C5_file_validation_at_parse_time (fs : FS) (input piece : Str)
    (h1 : strip input = input) (h2 : splitChar ' ' input = ["FILE".data, piece]) :
    process_input fs input =
      if (fs piece).isSome then .ok (some .FILE, .path piece, [])
      else .ok (none, .none, [badArgsMsg piece .FILE]) := by
  have hne : input ≠ [] := by
    intro h0
    rw [h0] at h2
    simp [splitChar] at h2
  have hlen : input.length ≠ 0 := by simpa using hne
  unfold process_input
  rw [h1, if_neg hlen, h2]
  have hup : upper ("FILE".data) = "FILE".data := rfl
  have hcmd : Command.ofStr ("FILE".data) = some Command.FILE := rfl
  simp [hup, hcmd]

/-- Witness for C5: on a filesystem containing `a.txt`, parsing `FILE a.txt`
returns the FILE command with the path. -/
theorem C5_file_validation_at_parse_time_witness :
    process_input fsA "FILE a.txt".data
      = .ok (some Command.FILE, Args.path "a.txt".data, []) := by
  have h := C5_file_validation_at_parse_time fsA "FILE a.txt".data "a.txt".data rfl rfl
  simpa [fsA] using h

/-- C6 counterexample: dispatching a FILE command whose path names no file
does not fail gracefully — `_handle_file` calls `open()` directly, so a
`FileNotFoundError` propagates out of `run_command` instead of a diagnostic
being emitted and `Continue` being returned. -/
theorem C6_missing_file_counterexample :
    run_command fsEmpty 1 .FILE (.path "missing.txt".data)
        (InputController.init board5)
      = .error .fileNotFound := by
  simp [run_command, handle_file, fsEmpty]

/-- C6 amended: dispatching a FILE command whose path names no regular file
raises `FileNotFoundError` to the caller (no diagnostic, no `Continue`); the
functional state passing shows no rover or board mutation can occur.  The
graceful missing-file handling lives at parse time instead (see C5). -/
theorem C6_file_dispatch_raises_on_missing_path (fs : FS) (fuel : ℕ) (p : Str)
    (c : InputController) (h : fs p = none) :
    run_command fs fuel .FILE (.path p) c = .error .fileNotFound := by
  simp [run_command, handle_file, h]

/-- Witness for C6: the missing-path dispatch error at a concrete input. -/
theorem C6_file_dispatch_raises_on_missing_path_witness :
    run_command fsEmpty 3 .FILE (.path "nope.txt".data)
        (InputController.init board5)
      = .error .fileNotFound :=
  C6_file_dispatch_raises_on_missing_path fsEmpty 3 "nope.txt".data
    (InputController.init board5) rfl

/-- C7 (code bug): constructing or placing a rover with the zero direction
vector is NOT rejected: both succeed without any error or diagnostic, and the
stored direction is `(0,0) / norm (0,0)` — a division by zero, which numpy
silently propagates as NaN (the rational model renders it as the ℚ division
default 0).  This contradicts the documented invariant that `_direction` is a
unit vector. -/
theorem C7_zero_direction_not_rejected :
    Rover.new board5 (3, 3) (0, 0)
      = .ok { position := (3, 3), direction := (0, 0) }
    ∧ npNorm ((0 : ℚ), (0 : ℚ)) = 0
    ∧ Rover.place board5 { position := (3, 3), direction := (0, 1) } (3, 3) (0, 0)
      = ({ position := (3, 3), direction := (0, 0) }, []) := by
  refine ⟨?_, ?_, ?_⟩ <;>
    norm_num [Rover.new, Rover.place, Board.is_point_in_bounds, vecDiv, npNorm,
      ratSqrt, board5, BOARD_SIZE]

/-- C8: `is_point_in_bounds` is true exactly on the closed rectangle — the
bounds are inclusive on both ends, so corners and edges are inside.  The
function is a pure boolean query (no state, no error case). -/
theorem C8_contains_iff_inclusive_bounds (b : Board) (p : Vec2) :
    b.is_point_in_bounds p = true ↔
      0 ≤ p.1 ∧ p.1 ≤ b.x_size ∧ 0 ≤ p.2 ∧ p.2 ≤ b.y_size := by
  simp [Board.is_point_in_bounds, and_assoc]

/-- C9: the four direction vectors are pairwise distinct unit vectors, and
four successive 90-degree rotations of the currently stored vector return
every direction vector to within 1e-9 of the original — in the exact-real
model of the rotation matrix the return is exact, so the distance is 0. -/
theorem C9_distinct_unit_directions_and_rotation_period :
    [Direction.NORTH.as_vec2, Direction.EAST.as_vec2, Direction.SOUTH.as_vec2,
        Direction.WEST.as_vec2].Nodup
    ∧ (∀ d : Direction, npNorm d.as_vec2 = 1)
    ∧ ∀ r : Rover,
        ((((r.rotate_left 90).rotate_left 90).rotate_left 90).rotate_left 90).direction
          = r.direction
        ∧ l1dist
            ((((r.rotate_left 90).rotate_left 90).rotate_left 90).rotate_left 90).direction
            r.direction ≤ 1e-9 := by
  refine ⟨?_, ?_, ?_⟩
  · norm_num [Direction.as_vec2, Prod.ext_iff]
  · intro d
    cases d <;>
      norm_num [Direction.as_vec2, npNorm, ratSqrt]
  · intro r
    have h4 : ((((r.rotate_left 90).rotate_left 90).rotate_left 90).rotate_left 90).direction
        = r.direction := by
      simp [Rover.rotate_left, get_rot_matrix, matVec, cosDeg, sinDeg]
    refine ⟨h4, ?_⟩
    rw [h4]
    norm_num [l1dist]

/-- C10: `run_command` with FILE or PLACE and an argument of the wrong type
(for example `None`) raises `AssertionError` at the public interface rather
than emitting a diagnostic and continuing; every other command ignores the
argument entirely. -/
theorem C10_run_command_argument_typing :
    (∀ (fs : FS) (fuel : ℕ) (c : InputController) (args : Args),
      (∀ p, args ≠ .path p) →
      run_command fs fuel .FILE args c = .error .assertionError)
    ∧ (∀ (fs : FS) (fuel : ℕ) (c : InputController) (args : Args),
      (∀ pa, args ≠ .placeArgs pa) →
      run_command fs fuel .PLACE args c = .error .assertionError)
    ∧ ∀ (fs : FS) (fuel : ℕ) (command : Command) (c : InputController)
        (args args2 : Args),
        command ≠ .FILE → command ≠ .PLACE →
        run_command fs fuel command args c = run_command fs fuel command args2 c := by
  refine ⟨?_, ?_, ?_⟩
  · intro fs fuel c args h
    cases args with
    | none => simp [run_command]
    | path p => exact absurd rfl (h p)
    | placeArgs pa => simp [run_command]
  · intro fs fuel c args h
    cases args with
    | none => simp [run_command]
    | path p => simp [run_command]
    | placeArgs pa => exact absurd rfl (h pa)
  · intro fs fuel command c args args2 hf hp
    cases command <;> simp_all [run_command]

/-- Witness for C10: FILE and PLACE dispatched with `None` arguments raise
`AssertionError`, and HELP gives the same result for unrelated arguments. -/
theorem C10_run_command_argument_typing_witness :
    run_command fsEmpty 1 .FILE .none (InputController.init board5)
      = .error .assertionError
    ∧ run_command fsEmpty 1 .PLACE .none (InputController.init board5)
      = .error .assertionError
    ∧ run_command fsEmpty 1 .HELP .none (InputController.init board5)
      = run_command fsEmpty 1 .HELP (.path "x".data) (InputController.init board5) := by
  refine ⟨?_, ?_, ?_⟩
  · exact C10_run_command_argument_typing.1 fsEmpty 1 (InputController.init board5)
      .none (fun p h => by cases h)
  · exact C10_run_command_argument_typing.2.1 fsEmpty 1 (InputController.init board5)
      .none (fun pa h => by cases h)
  · exact C10_run_command_argument_typing.2.2 fsEmpty 1 .HELP
      (InputController.init board5) .none (.path "x".data)
      (by intro h; cases h) (by intro h; cases h)

end ToyRover
